import Mathlib

/-!
Shallow embedding of the periph/bootstrap flashing tool (src/flash.py and
src/find.py) together with proofs about the behaviours described in its
specification.  Pure fragments of the Python code become Lean functions;
filesystem and subprocess effects become explicit action traces or
state-passing functions; Python exceptions become `Option`/`Except` failures.
-/

set_option autoImplicit false

namespace Bootstrap

/-- The character `\` (used by the first mount-reply regex's character class). -/
def backslashChar : Char := Char.ofNat 92

/-- The character `'` (closing quote of the second mount-reply regex). -/
def quoteChar : Char := Char.ofNat 39

/-!
### Mount reply parsing (src/flash.py, `mount`, lines 84-98)

`mount` runs `udisksctl mount -b path` and parses its textual reply with two
regexes, both applied with `re.match`, i.e. anchored at the START of the text:

  r1 = `Mounted (?:[^ ]+) at ([^\\]+)\.`
  r2 = ``is already mounted at `([^']+)'``

If neither matches, the code hits `assert False` (parse failure, no path).
The functions below reproduce Python's leftmost/greedy backtracking semantics
for these two fixed patterns.
-/

/--
Greedy `([^\\]+)\.` applied to `t` (which must already be backslash-free):
the capture is the longest nonempty proper run that is followed by a literal
dot, i.e. everything before the LAST dot of `t`; `none` if no such split.
-/
def lastDotCut (t : List Char) : Option (List Char) :=
  match t.reverse.dropWhile (fun c => c ≠ '.') with
  | [] => none
  | _ :: rest => if rest.isEmpty then none else some rest.reverse

/-- Anchored match of regex r1, `Mounted (?:[^ ]+) at ([^\\]+)\.`, returning
the captured group. -/
def matchMounted (txt : List Char) : Option (List Char) :=
  let p := "Mounted ".toList
  if p.isPrefixOf txt then
    let rest := txt.drop p.length
    let dev := rest.takeWhile (fun c => c ≠ ' ')
    if dev.isEmpty then none
    else
      let afterDev := rest.drop dev.length
      let mid := " at ".toList
      if mid.isPrefixOf afterDev then
        lastDotCut ((afterDev.drop mid.length).takeWhile (fun c => c ≠ backslashChar))
      else none
  else none

/-- Anchored match of regex r2, ``is already mounted at `([^']+)'``, returning
the captured group. -/
def matchAlready (txt : List Char) : Option (List Char) :=
  let p := "is already mounted at `".toList
  if p.isPrefixOf txt then
    let s := txt.drop p.length
    let g := s.takeWhile (fun c => c ≠ quoteChar)
    if g.isEmpty then none
    else if g.length < s.length then some g else none
  else none

/-- `mount`'s reply parser: try r1 then r2 with `re.match` semantics; `none`
models the `assert False` parse failure (no mount path is returned). -/
def mountParse (txt : String) : Option String :=
  match matchMounted txt.toList with
  | some g => some (String.mk g)
  | none => (matchAlready txt.toList).map String.mk

/-- The already-mounted diagnostic exactly as documented by the comment above
regex r2 in the source (lines 89-90 of src/flash.py). -/
def alreadyMountedReply : String :=
  "Error mounting /dev/sdh2: GDBus.Error:org.freedesktop.UDisks2.Error.AlreadyMounted: Device /dev/sdh2 is already mounted at `/media/x/ABCD'."

/-!
### Path joining (Python 2 `posixpath.join`)
-/

/-- `s.startswith(p)` on strings, computed on the character lists. -/
def strStartsWith (s p : String) : Bool := p.toList.isPrefixOf s.toList

/-- `s.endswith(p)` on strings, computed on the character lists. -/
def strEndsWith (s p : String) : Bool := p.toList.isSuffixOf s.toList

/-- Two-argument `os.path.join` on POSIX: an absolute second component wins;
otherwise a separator is inserted unless one is already present. -/
def pjoin (a b : String) : String :=
  if strStartsWith b "/" then b
  else if a = "" ∨ strEndsWith a "/" then a ++ b
  else a ++ "/" ++ b

/-- Path at which `setup_ssh` creates the SSH-enablement marker
(src/flash.py line 182): `os.path.join(boot + 'ssh')` is a ONE-argument
join, i.e. plain string concatenation of `boot` and `"ssh"`. -/
def sshMarkerPath (boot : String) : String := boot ++ "ssh"

/-!
### Partition path derivation (src/flash.py lines 208-209 and 222-223)
-/

/-- Python's substring containment `needle in hay`. -/
def strContainsSub (needle hay : String) : Bool :=
  (List.range (hay.toList.length + 1)).any
    (fun i => needle.toList.isPrefixOf (hay.toList.drop i))

/-- `as_root` line 223: `args.path + 'p' if 'mmcblk' in args.path else
args.path`, the base to which partition numbers are appended. -/
def partitionDevBase (p : String) : String :=
  if strContainsSub "mmcblk" p then p ++ "p" else p

/-- `flash` line 209: the second partition's device node that the poll loop
waits for. -/
def flashWaitPath (p : String) : String :=
  (if strContainsSub "mmcblk" p then p ++ "p" else p) ++ "2"

/-- The naming convention used for every derived partition path: infix `p`
for the mmcblk family, plain suffix otherwise. -/
def derivePartitionPath (p : String) (n : Nat) : String :=
  partitionDevBase p ++ toString n

/-!
### Provisioner (src/flash.py, `setup_first_boot`, `setup_ssh`, `setup_wifi`,
`enable_5inches`, and the dispatch in `as_root` lines 230-237)

Filesystem and subprocess effects are embedded as explicit action traces.
-/

/-- The replacement `/etc/rc.local` written by `setup_first_boot`
(the `RC_LOCAL` constant of src/flash.py). -/
def RC_LOCAL : String :=
  "#!/bin/sh\n# Copyright 2016 Marc-Antoine Ruel. All rights reserved.\n# Use of this source code is governed under the Apache License, Version 2.0\n# that can be found in the LICENSE file.\n\n# Part of https://github.com/maruel/bin_pub\n\nset -e\n\nLOG_FILE=/var/log/firstboot.log\nif [ ! -f $LOG_FILE ]; then\n  /root/firstboot.sh 2>&1 | tee $LOG_FILE\nfi\nexit 0\n"

/-- The display-overlay configuration block (the
`RASPBIAN_FIVE_INCHES_DISPLAY` constant of src/flash.py). -/
def RASPBIAN_FIVE_INCHES_DISPLAY : String :=
  "\n# Enable support for 800x480 display:\nhdmi_group=2\nhdmi_mode=87\nhdmi_cvt 800 480 60 6 0 0 0\n\n# Enable touchscreen:\n# Not necessary on Jessie Lite since it boots in console mode. :)\n# Some displays use 22, others 25.\n# Enabling this means the SPI bus cannot be used anymore.\n#dtoverlay=ads7846,penirq=22,penirq_pull=2,speed=10000,xohms=150\n"

/-- The supplicant configuration produced by `setup_wifi`: the
`WPA_SUPPLICANT` template of src/flash.py with the SSID and passphrase
substituted for the two `%s` holes. -/
def wpaConf (ssid psk : String) : String :=
  "\nnetwork=\x7b\n  ssid=\"" ++ ssid ++ "\"\n  psk=\"" ++ psk ++ "\"\n\x7d\n"

/-- One filesystem or subprocess effect performed by the Provisioner. -/
inductive FsAction where
  | copyFile (src dst : String)
  | chmod (path : String) (mode : Nat)
  | rename (src dst : String)
  | writeFile (path : String) (content : String)
  | createEmpty (path : String)
  | makeDirs (path : String)
  | runCmd (argv : List String)
deriving DecidableEq

/-- Point update of a filesystem modelled as a partial map from paths to
contents. -/
def setFile (fs : String → Option String) (p : String) (v : Option String) :
    String → Option String :=
  fun q => if q = p then v else fs q

/-- Semantics of one action on the modelled filesystem; `none` is a raised
exception (missing source file and the like).  `writeFile` is Python's
`open(path, 'wb')` followed by one write: a truncating overwrite. -/
def applyAct (fs : String → Option String) : FsAction → Option (String → Option String)
  | .copyFile s d => (fs s).map (fun c => setFile fs d (some c))
  | .chmod p _ => if (fs p).isSome then some fs else none
  | .rename s d => (fs s).map (fun c => setFile (setFile fs s none) d (some c))
  | .writeFile p c => some (setFile fs p (some c))
  | .createEmpty p => some (setFile fs p (some ""))
  | .makeDirs _ => some fs
  | .runCmd _ => some fs

/-- Run a trace of actions left to right, propagating failure. -/
def applyActs (fs : String → Option String) : List FsAction → Option (String → Option String)
  | [] => some fs
  | a :: rest => (applyAct fs a).bind (fun fs2 => applyActs fs2 rest)

/-- `setup_first_boot` (lines 150-160): install the first-boot script, back up
`etc/rc.local`, write the replacement hook, mark both executable (0755 = 493). -/
def setup_first_boot_acts (root : String) : List FsAction :=
  [.copyFile "setup.sh" (pjoin root "root/firstboot.sh"),
   .chmod (pjoin root "root/firstboot.sh") 493,
   .rename (pjoin root "etc/rc.local") (pjoin root "etc/rc.local.old"),
   .writeFile (pjoin root "etc/rc.local") RC_LOCAL,
   .chmod (pjoin root "etc/rc.local") 493]

/-- `enable_5inches` (lines 137-147): for raspbian, open `boot/config.txt`
with mode `'wb'` and write the overlay block; any other distro hits
`assert False` (`none`). -/
def enable_5inches_acts (distro root boot : String) : Option (List FsAction) :=
  if distro = "raspbian" then
    some [.writeFile (pjoin boot "config.txt") RASPBIAN_FIVE_INCHES_DISPLAY]
  else none

/-- `setup_ssh` (lines 163-182): key install, ownership, sshd config patch,
and (raspbian only) the boot-partition marker at `boot + 'ssh'`. -/
def setup_ssh_acts (user distro key root boot : String) : List FsAction :=
  [.makeDirs (pjoin root ("home/" ++ user ++ "/.ssh")),
   .copyFile key (pjoin root ("home/" ++ user ++ "/.ssh/authorized_keys")),
   .runCmd ["chown", "-R", "1000:1000", pjoin root ("home/" ++ user ++ "/.ssh")],
   .runCmd ["sed", "-i", "s/#PasswordAuthentication yes/PasswordAuthentication no/",
            pjoin root "etc/ssh/sshd_config"]]
  ++ (if distro = "raspbian" then [.createEmpty (sshMarkerPath boot)] else [])

/-- `setup_wifi` (lines 185-188). -/
def setup_wifi_acts (ssid psk root : String) : List FsAction :=
  [.writeFile (pjoin root "etc/wpa_supplicant/wpa_supplicant.conf") (wpaConf ssid psk)]

/-- The Provisioning Request: the optional customizations that drive which
Provisioner steps run (`args` fields consulted in `as_root`). -/
structure ProvArgs where
  distro : String
  user : String
  five_inches : Bool
  ssh_key : Option String
  wifi : Option (String × String)

/-- The provisioning section of `as_root` (lines 230-237): first-boot setup
always, then each optional step gated by its flag.  `none` is the
`assert False` of `enable_5inches` on an unsupported distro. -/
def provisionActs (a : ProvArgs) (root boot : String) : Option (List FsAction) :=
  let fb := setup_first_boot_acts root
  let overlay : Option (List FsAction) :=
    if a.five_inches then enable_5inches_acts a.distro root boot else some []
  overlay.map (fun ov =>
    fb ++ ov
      ++ (match a.ssh_key with
          | some k => setup_ssh_acts a.user a.distro k root boot
          | none => [])
      ++ (match a.wifi with
          | some sp => setup_wifi_acts sp.1 sp.2 root
          | none => []))

/-!
### Flash Engine (src/flash.py, `flash`, lines 191-217)

The successful run of `flash` is embedded as the trace of its externally
visible steps: unmount-all, the `dd` write, the `sync` flushes, the
`partprobe` table reload, and the poll loop waiting for the second
partition's device node.  A run is parametrised by the number `m` of failed
`os.stat` polls before the node appears (the loop is unbounded).
-/

/-- One step of the Flash Engine. -/
inductive FlashEvent where
  | unmountAll
  | writeImage
  | flushCache
  | reloadTable
  | pollPartition (found : Bool)
deriving DecidableEq

/-- The trace of `flash` when every external command succeeds and the second
partition's node appears after `m` failed polls: `umount`, `dd`, `sync`,
`partprobe`, `sync`, then the poll loop. -/
def flashTrace (m : Nat) : List FlashEvent :=
  [.unmountAll, .writeImage, .flushCache, .reloadTable, .flushCache]
    ++ List.replicate m (.pollPartition false) ++ [.pollPartition true]

/-!
### Unmount-all (src/flash.py, `umount`, lines 101-112)

`umount` iterates over `sorted(glob.glob(p + '*'))`, skips the device path
itself, force-unmounts each entry, and keeps going on failure while turning
the aggregate flag false.  The glob result is modelled as the filesystem
entries whose path has `p` as a prefix; `ok` tells whether the individual
unmount of an entry succeeds.
-/

/-- The loop body of `umount` over an entry list: returns the entries whose
unmount was attempted, in order, and the aggregate success flag. -/
def umountAttempts (p : String) : List String → (String → Bool) → List String × Bool
  | [], _ => ([], true)
  | i :: rest, ok =>
    let r := umountAttempts p rest ok
    if i = p then r else (i :: r.1, ok i && r.2)

/-- `umount p`: glob the entries prefixed by `p` out of the filesystem
listing, then run the loop. -/
def umountModel (p : String) (entries : List String) (ok : String → Bool) :
    List String × Bool :=
  umountAttempts p (entries.filter (fun e => strStartsWith e p)) ok

/-!
### Image Acquirer (src/flash.py, `fetch_img`, lines 115-134)

State: the working directory's files and a counter of network calls.  A
cache hit returns the image name with the state untouched; a miss downloads
the archive (`curl`, one network call), extracts the image, and removes the
archive; an unknown distro hits `assert False` (`none`).
-/

/-- The cached image filename for the supported distribution. -/
def RASPBIAN_JESSIE_LITE_IMG : String := "2017-03-02-raspbian-jessie-lite.img"

/-- Working-directory state seen by the Image Acquirer. -/
structure AcqState where
  files : List String
  netCalls : Nat
deriving DecidableEq

/-- `fetch_img`: idempotent image acquisition. -/
def fetch_img (distro : String) (s : AcqState) : Option (String × AcqState) :=
  if distro = "raspbian" then
    if RASPBIAN_JESSIE_LITE_IMG ∈ s.files then some (RASPBIAN_JESSIE_LITE_IMG, s)
    else
      some (RASPBIAN_JESSIE_LITE_IMG,
        { files := ((s.files.insert "raspbian_lite.zip").insert
              RASPBIAN_JESSIE_LITE_IMG).erase "raspbian_lite.zip",
          netCalls := s.netCalls + 1 })
  else none

/-!
### Network-discovery report (src/find.py, `main`, lines 12-19)

The utility's output lines are the input; the report keeps the lines that
start with `=`, splits them on `;`, keeps the records whose third field is
`IPv4`, and prints `hostname: ip_address` from the seventh and eighth fields.
Indexing past the end of a record is a raised `IndexError` (`none`).
-/

/-- Python's `str.split(sep)` for a one-character separator, on char lists. -/
def splitOnChar (c : Char) : List Char → List (List Char)
  | [] => [[]]
  | x :: xs =>
    let r := splitOnChar c xs
    if x = c then [] :: r
    else
      match r with
      | [] => [[x]]
      | y :: ys => (x :: y) :: ys

/-- `l.split(';')`. -/
def splitSemi (l : String) : List String := (splitOnChar ';' l.toList).map String.mk

/-- The `l[2] == 'IPv4'` filtering pass; `none` models the `IndexError` on a
record with fewer than three fields. -/
def filterIPv4 : List (List String) → Option (List (List String))
  | [] => some []
  | r :: rest =>
    match r[2]? with
    | none => none
    | some f => (filterIPv4 rest).map (fun t => if f = "IPv4" then r :: t else t)

/-- The `'%s: %s' % (i[6], i[7])` formatting pass; `none` models the
`IndexError` on a record with fewer than eight fields. -/
def formatRecords : List (List String) → Option (List String)
  | [] => some []
  | r :: rest =>
    match r[6]?, r[7]? with
    | some hn, some ip => (formatRecords rest).map (fun t => (hn ++ ": " ++ ip) :: t)
    | _, _ => none

/-- `main` of src/find.py, from the utility's output lines to the printed
report lines. -/
def findMain (lines : List String) : Option (List String) :=
  (filterIPv4 ((lines.filter (fun l => strStartsWith l "=")).map splitSemi)).bind
    formatRecords

/-!
### Privilege Escalation Shim (src/flash.py, `find_public_key` and `main`)

`find_public_key` scans four candidate public keys under `~/.ssh` and falls
off the end (Python's implicit `None`) when none exists.  The unprivileged
`main` then builds the elevated re-exec argument list with `args.ssh_key`
spliced in as-is; a `None` element makes `subprocess.call` raise before the
elevated instance ever starts.
-/

/-- The candidate public-key files, in search order (lines 255-259). -/
def sshKeyCandidates (home : String) : List String :=
  ["authorized_keys", "id_ed25519.pub", "id_ecdsa.pub", "id_rsa.pub"].map
    (fun i => pjoin (pjoin home ".ssh") i)

/-- `find_public_key`, with the filesystem's file-existence test abstracted. -/
def find_public_key (home : String) (isFile : String → Bool) : Option String :=
  (sshKeyCandidates home).find? isFile

/-- The re-exec argument list built by the unprivileged `main`
(lines 304-319).  Elements are `Option String` because `args.ssh_key` can be
Python's `None`. -/
def reexecCmd (pyExe script distro : String) (sshKey : Option String) (img : String)
    (wifi : Option (String × String)) (fiveInch skipFlash : Bool) (path : String) :
    List (Option String) :=
  [some "sudo", some pyExe, some "-s", some "-S", some script, some "--as-root",
   some "--distro", some distro, some "--ssh-key", sshKey, some "--img", some img]
  ++ (match wifi with | some sp => [some "--wifi", some sp.1, some sp.2] | none => [])
  ++ (if fiveInch then [some "--5inch"] else [])
  ++ (if skipFlash then [some "--skip-flash"] else [])
  ++ [some path]

/-- `subprocess.call` only execs when every argument is a string; a `None`
element raises `TypeError` first, so the child never runs. -/
def subprocessCallRuns (cmd : List (Option String)) : Bool := cmd.all Option.isSome

end Bootstrap

namespace Bootstrap

/-- The supplicant configuration always starts with a newline, whatever the
credentials are. -/
theorem wpaConf_head (ssid psk : String) :
    (wpaConf ssid psk).data.head? = some '\n' := rfl

/-- Claim C1 (code behaviour at the failing input): grammar (a) parses to the
embedded path and garbage is rejected, but the already-mounted diagnostic in
the exact form documented by the source's own comment is ALSO rejected
(`re.match` anchors r2 at the start, and the diagnostic starts with
"Error mounting ..."), while the same text with the prefix stripped would
parse - demonstrating the anchoring slip. -/
theorem mount_parse_code_bug :
    mountParse "Mounted /dev/sdb2 at /media/x/ABCD." = some "/media/x/ABCD" ∧
    mountParse "garbage" = none ∧
    mountParse alreadyMountedReply = none ∧
    mountParse "is already mounted at `/media/x/ABCD'." = some "/media/x/ABCD" := by
  refine ⟨?_, ?_, ?_, ?_⟩ <;> decide

/-- Claim C3 (code behaviour at the failing input): for the representative
mount path `/media/pi/boot`, the code creates the marker at
`/media/pi/bootssh` (string concatenation), which differs from the joined
path `/media/pi/boot/ssh` inside the boot partition that the claim states. -/
theorem ssh_marker_code_bug :
    sshMarkerPath "/media/pi/boot" = "/media/pi/bootssh" ∧
    pjoin "/media/pi/boot" "ssh" = "/media/pi/boot/ssh" ∧
    sshMarkerPath "/media/pi/boot" ≠ pjoin "/media/pi/boot" "ssh" := by
  refine ⟨?_, ?_, ?_⟩ <;> decide

/-- Claim C4: partition-path derivation follows the documented convention on
representative device paths of both families (infix `p` for mmcblk, plain
suffix for sdX), and the flash-engine poll path and the mount paths used by
`as_root` are derived by one and the same convention. -/
theorem derive_partition_path_correct :
    derivePartitionPath "/dev/mmcblk0" 2 = "/dev/mmcblk0p2" ∧
    derivePartitionPath "/dev/sdb" 2 = "/dev/sdb2" ∧
    derivePartitionPath "/dev/mmcblk0" 1 = "/dev/mmcblk0p1" ∧
    derivePartitionPath "/dev/sdb" 1 = "/dev/sdb1" ∧
    (∀ p : String, flashWaitPath p = derivePartitionPath p 2) ∧
    (∀ p : String, partitionDevBase p ++ "1" = derivePartitionPath p 1) := by
  refine ⟨by decide, by decide, by decide, by decide, ?_, ?_⟩
  · intro p
    rfl
  · intro p
    rfl

/-- Claim C2, counterexample: with `/media/u/boot/config.txt` holding
`"gpu_mem=16\n"` beforehand, running the display-overlay step does NOT leave
the file equal to its prior contents followed by the overlay block — the
`'wb'` open truncates it. -/
theorem overlay_append_counterexample :
    ((enable_5inches_acts "raspbian" "/media/u/root" "/media/u/boot").bind
        (fun acts =>
          applyActs
            (fun p => if p = "/media/u/boot/config.txt" then some "gpu_mem=16\n" else none)
            acts)).map (fun g => g "/media/u/boot/config.txt")
      ≠ some (some ("gpu_mem=16\n" ++ RASPBIAN_FIVE_INCHES_DISPLAY)) := by
  decide

/-- Claim C2 as amended: the display-overlay step OVERWRITES the boot
configuration file — after the step its content is exactly the overlay block,
whatever the file held before (appending coincides with this only when the
file was empty). -/
theorem overlay_overwrites (root boot : String) (fs : String → Option String) :
    ((enable_5inches_acts "raspbian" root boot).bind (fun acts => applyActs fs acts)).map
        (fun g => g (pjoin boot "config.txt"))
      = some (some RASPBIAN_FIVE_INCHES_DISPLAY) := by
  simp [enable_5inches_acts, applyActs, applyAct, setFile]

/-- Claim C8: with no optional flags set (no display flag, no SSH key, no
Wi-Fi), the Provisioner performs exactly the mandatory first-boot hook
actions — first-boot script copy marked executable, boot-time hook backed up
then replaced by `RC_LOCAL` — and none of the SSH, Wi-Fi or display-overlay
artifacts: no marker file, no external command, no directory creation, every
file written has content `RC_LOCAL` (which is neither the overlay block nor
any supplicant configuration), and the only copy installs `setup.sh` as the
first-boot script. -/
theorem provision_no_optional_flags (distro user root boot : String) :
    provisionActs ⟨distro, user, false, none, none⟩ root boot
      = some (setup_first_boot_acts root) ∧
    setup_first_boot_acts root =
      [.copyFile "setup.sh" (pjoin root "root/firstboot.sh"),
       .chmod (pjoin root "root/firstboot.sh") 493,
       .rename (pjoin root "etc/rc.local") (pjoin root "etc/rc.local.old"),
       .writeFile (pjoin root "etc/rc.local") RC_LOCAL,
       .chmod (pjoin root "etc/rc.local") 493] ∧
    (∀ p, FsAction.createEmpty p ∉ setup_first_boot_acts root) ∧
    (∀ l, FsAction.runCmd l ∉ setup_first_boot_acts root) ∧
    (∀ p, FsAction.makeDirs p ∉ setup_first_boot_acts root) ∧
    (∀ p c, FsAction.writeFile p c ∈ setup_first_boot_acts root → c = RC_LOCAL) ∧
    (∀ s d, FsAction.copyFile s d ∈ setup_first_boot_acts root →
        s = "setup.sh" ∧ d = pjoin root "root/firstboot.sh") ∧
    RC_LOCAL ≠ RASPBIAN_FIVE_INCHES_DISPLAY ∧
    (∀ ssid psk, RC_LOCAL ≠ wpaConf ssid psk) := by
  refine ⟨?_, rfl, ?_, ?_, ?_, ?_, ?_, by decide, ?_⟩
  · simp [provisionActs]
  · intro p
    simp [setup_first_boot_acts]
  · intro l
    simp [setup_first_boot_acts]
  · intro p
    simp [setup_first_boot_acts]
  · intro p c h
    simp [setup_first_boot_acts] at h
    exact h.2
  · intro s d h
    simp [setup_first_boot_acts] at h
    exact h
  · intro ssid psk h
    have h2 : RC_LOCAL.data.head? = (wpaConf ssid psk).data.head? := by rw [h]
    rw [wpaConf_head] at h2
    exact absurd h2 (by decide)

/-- Claim C8, witness: the claim instantiated at a concrete root and boot
mount path. -/
theorem provision_no_optional_flags_witness :
    provisionActs ⟨"raspbian", "pi", false, none, none⟩ "/media/u/root" "/media/u/boot"
      = some (setup_first_boot_acts "/media/u/root") :=
  (provision_no_optional_flags "raspbian" "pi" "/media/u/root" "/media/u/boot").1

/-- Every entry of a flash trace is one of the five steps, at a fixed
position: the poll events are exactly the entries from position 5 on. -/
theorem flashTrace_shape (m i : Nat) (e : FlashEvent)
    (h : (flashTrace m).get? i = some e) :
    (i = 0 ∧ e = .unmountAll) ∨ (i = 1 ∧ e = .writeImage) ∨
    (i = 2 ∧ e = .flushCache) ∨ (i = 3 ∧ e = .reloadTable) ∨
    (i = 4 ∧ e = .flushCache) ∨ (5 ≤ i ∧ ∃ b, e = .pollPartition b) := by
  match i with
  | 0 => simp [flashTrace] at h; exact Or.inl ⟨rfl, h.symm⟩
  | 1 => simp [flashTrace] at h; exact Or.inr (Or.inl ⟨rfl, h.symm⟩)
  | 2 => simp [flashTrace] at h; exact Or.inr (Or.inr (Or.inl ⟨rfl, h.symm⟩))
  | 3 => simp [flashTrace] at h; exact Or.inr (Or.inr (Or.inr (Or.inl ⟨rfl, h.symm⟩)))
  | 4 =>
    simp [flashTrace] at h
    exact Or.inr (Or.inr (Or.inr (Or.inr (Or.inl ⟨rfl, h.symm⟩))))
  | (n + 5) =>
    refine Or.inr (Or.inr (Or.inr (Or.inr (Or.inr ⟨by omega, ?_⟩))))
    have h2 : (List.replicate m (FlashEvent.pollPartition false)
        ++ [FlashEvent.pollPartition true]).get? n = some e := by
      simpa [flashTrace] using h
    have hmem := List.get?_mem h2
    rcases List.mem_append.mp hmem with hm | hm
    · exact ⟨false, (List.eq_of_mem_replicate hm)⟩
    · simp at hm
      exact ⟨true, hm⟩

/-- In a flash trace, the unmount-all step sits at position 0. -/
theorem flashTrace_pos_unmount {m i : Nat}
    (h : (flashTrace m).get? i = some .unmountAll) : i = 0 := by
  rcases flashTrace_shape m i _ h with ⟨h1, h2⟩ | ⟨h1, h2⟩ | ⟨h1, h2⟩ | ⟨h1, h2⟩ |
    ⟨h1, h2⟩ | ⟨h1, h2⟩
  · exact h1
  all_goals simp at h2

/-- In a flash trace, the image write sits at position 1. -/
theorem flashTrace_pos_write {m i : Nat}
    (h : (flashTrace m).get? i = some .writeImage) : i = 1 := by
  rcases flashTrace_shape m i _ h with ⟨h1, h2⟩ | ⟨h1, h2⟩ | ⟨h1, h2⟩ | ⟨h1, h2⟩ |
    ⟨h1, h2⟩ | ⟨h1, h2⟩
  · simp at h2
  · exact h1
  all_goals simp at h2

/-- In a flash trace, the cache flushes sit at positions 2 and 4. -/
theorem flashTrace_pos_flush {m i : Nat}
    (h : (flashTrace m).get? i = some .flushCache) : i = 2 ∨ i = 4 := by
  rcases flashTrace_shape m i _ h with ⟨h1, h2⟩ | ⟨h1, h2⟩ | ⟨h1, h2⟩ | ⟨h1, h2⟩ |
    ⟨h1, h2⟩ | ⟨h1, h2⟩
  · simp at h2
  · simp at h2
  · exact Or.inl h1
  · simp at h2
  · exact Or.inr h1
  · simp at h2

/-- In a flash trace, the partition-table reload sits at position 3. -/
theorem flashTrace_pos_reload {m i : Nat}
    (h : (flashTrace m).get? i = some .reloadTable) : i = 3 := by
  rcases flashTrace_shape m i _ h with ⟨h1, h2⟩ | ⟨h1, h2⟩ | ⟨h1, h2⟩ | ⟨h1, h2⟩ |
    ⟨h1, h2⟩ | ⟨h1, h2⟩
  · simp at h2
  · simp at h2
  · simp at h2
  · exact h1
  · simp at h2
  · simp at h2

/-- In a flash trace, every partition poll sits at position 5 or later. -/
theorem flashTrace_pos_poll {m i : Nat} {b : Bool}
    (h : (flashTrace m).get? i = some (.pollPartition b)) : 5 ≤ i := by
  rcases flashTrace_shape m i _ h with ⟨h1, h2⟩ | ⟨h1, h2⟩ | ⟨h1, h2⟩ | ⟨h1, h2⟩ |
    ⟨h1, h2⟩ | ⟨h1, h2⟩
  · simp at h2
  · simp at h2
  · simp at h2
  · simp at h2
  · simp at h2
  · exact h1

/-- Claim C5: in every run of the Flash Engine (any number `m` of failed
polls), the destructive write occurs strictly after the unmount-all step and
strictly before every cache flush, every poll for the second partition's node
occurs strictly after the partition-table reload, and the write and reload
each occur exactly once while the two flush steps occur exactly once each
(two flushes total) — none of them is retried. -/
theorem flash_engine_ordering (m : Nat) :
    (∀ i j, (flashTrace m).get? i = some .unmountAll →
      (flashTrace m).get? j = some .writeImage → i < j) ∧
    (∀ i j, (flashTrace m).get? i = some .writeImage →
      (flashTrace m).get? j = some .flushCache → i < j) ∧
    (∀ i j b, (flashTrace m).get? i = some .reloadTable →
      (flashTrace m).get? j = some (.pollPartition b) → i < j) ∧
    (flashTrace m).count .writeImage = 1 ∧
    (flashTrace m).count .reloadTable = 1 ∧
    (flashTrace m).count .flushCache = 2 := by
  refine ⟨?_, ?_, ?_, ?_, ?_, ?_⟩
  · intro i j hi hj
    have h1 := flashTrace_pos_unmount hi
    have h2 := flashTrace_pos_write hj
    omega
  · intro i j hi hj
    have h1 := flashTrace_pos_write hi
    have h2 := flashTrace_pos_flush hj
    omega
  · intro i j b hi hj
    have h1 := flashTrace_pos_reload hi
    have h2 := flashTrace_pos_poll hj
    omega
  · simp [flashTrace, List.count_append, List.count_replicate, List.count_cons]
  · simp [flashTrace, List.count_append, List.count_replicate, List.count_cons]
  · simp [flashTrace, List.count_append, List.count_replicate, List.count_cons]

/-- Claim C5, witness: in the run with two failed polls, the reload at
position 3 precedes the poll at position 5. -/
theorem flash_engine_ordering_witness :
    (flashTrace 2).get? 3 = some FlashEvent.reloadTable ∧
    (flashTrace 2).get? 5 = some (FlashEvent.pollPartition false) ∧ (3 : Nat) < 5 :=
  ⟨by decide, by decide,
    (flash_engine_ordering 2).2.2.1 3 5 false (by decide) (by decide)⟩

/-- The attempted entries of the `umount` loop are exactly the input entries
other than the device path itself, in order. -/
theorem umountAttempts_fst (p : String) (l : List String) (ok : String → Bool) :
    (umountAttempts p l ok).1 = l.filter (fun e => !decide (e = p)) := by
  induction l with
  | nil => rfl
  | cons i rest ih =>
    by_cases h : i = p
    · subst h
      simp [umountAttempts, ih]
    · simp [umountAttempts, h, ih]

/-- The aggregate flag of the `umount` loop is the conjunction of the
individual outcomes over the attempted entries. -/
theorem umountAttempts_snd (p : String) (l : List String) (ok : String → Bool) :
    (umountAttempts p l ok).2 = (umountAttempts p l ok).1.all ok := by
  induction l with
  | nil => rfl
  | cons i rest ih =>
    by_cases h : i = p
    · subst h
      simp [umountAttempts, ih]
    · simp [umountAttempts, h, ih]

/-- Claim C6: `umount p` attempts exactly the filesystem entries prefixed by
the device path, excluding the device path itself (so an individual failure
never aborts the remaining unmounts), and its aggregate flag is true iff the
unmount of every attempted entry succeeded. -/
theorem umount_all_aggregate (p : String) (entries : List String) (ok : String → Bool) :
    (umountModel p entries ok).1
      = entries.filter (fun e => strStartsWith e p && !decide (e = p)) ∧
    (umountModel p entries ok).2 = (umountModel p entries ok).1.all ok ∧
    ((umountModel p entries ok).2 = true ↔
      ∀ i ∈ (umountModel p entries ok).1, ok i = true) := by
  have hfst : (umountModel p entries ok).1
      = entries.filter (fun e => strStartsWith e p && !decide (e = p)) := by
    unfold umountModel
    rw [umountAttempts_fst, List.filter_filter]
    exact List.filter_congr (fun a _ => by rw [Bool.and_comm])
  have hsnd : (umountModel p entries ok).2 = (umountModel p entries ok).1.all ok :=
    umountAttempts_snd p _ ok
  exact ⟨hfst, hsnd, by rw [hsnd]; exact List.all_eq_true⟩

/-- Claim C6, witness: a device with two partitions, one of which fails to
unmount — both are attempted and the aggregate flag is false. -/
theorem umount_all_witness :
    (umountModel "/dev/sdb" ["/dev/sda", "/dev/sdb", "/dev/sdb1", "/dev/sdb2"]
        (fun e => decide (e = "/dev/sdb1"))).1 = ["/dev/sdb1", "/dev/sdb2"] ∧
    (umountModel "/dev/sdb" ["/dev/sda", "/dev/sdb", "/dev/sdb1", "/dev/sdb2"]
        (fun e => decide (e = "/dev/sdb1"))).2 = false :=
  ⟨((umount_all_aggregate "/dev/sdb" ["/dev/sda", "/dev/sdb", "/dev/sdb1", "/dev/sdb2"]
      (fun e => decide (e = "/dev/sdb1"))).1).trans (by decide), by decide⟩

/-- Claim C7: image acquisition is idempotent — after any successful call,
a second call returns the same path and the very same state (so zero further
network calls), and when the cached image is already present the call returns
it with the state untouched (no network access, no filesystem writes). -/
theorem fetch_img_idempotent (s : AcqState) (r : String) (s2 : AcqState)
    (h : fetch_img "raspbian" s = some (r, s2)) :
    fetch_img "raspbian" s2 = some (r, s2) ∧
    (RASPBIAN_JESSIE_LITE_IMG ∈ s.files → s2 = s) := by
  unfold fetch_img at h ⊢
  rw [if_pos rfl] at h ⊢
  by_cases hc : RASPBIAN_JESSIE_LITE_IMG ∈ s.files
  · rw [if_pos hc] at h
    obtain ⟨hr, hs⟩ : RASPBIAN_JESSIE_LITE_IMG = r ∧ s = s2 := by
      have := Option.some.inj h
      exact ⟨congrArg Prod.fst this, congrArg Prod.snd this⟩
    subst hr
    subst hs
    rw [if_pos hc]
    exact ⟨rfl, fun _ => rfl⟩
  · rw [if_neg hc] at h
    obtain ⟨hr, hs⟩ : RASPBIAN_JESSIE_LITE_IMG = r ∧ _ = s2 := by
      have := Option.some.inj h
      exact ⟨congrArg Prod.fst this, congrArg Prod.snd this⟩
    subst hr
    subst hs
    have hmem : RASPBIAN_JESSIE_LITE_IMG ∈
        ((s.files.insert "raspbian_lite.zip").insert
          RASPBIAN_JESSIE_LITE_IMG).erase "raspbian_lite.zip" := by
      refine (List.mem_erase_of_ne (by decide)).mpr ?_
      exact List.mem_insert_self _ _
    rw [if_pos hmem]
    exact ⟨rfl, fun hmem0 => absurd hmem0 hc⟩

/-- Claim C7, witness: a second call after the successful first call from an
empty working directory returns the image path and leaves the state (one
network call, the cached image on disk) untouched. -/
theorem fetch_img_idempotent_witness :
    fetch_img "raspbian" ⟨["2017-03-02-raspbian-jessie-lite.img"], 1⟩
      = some ("2017-03-02-raspbian-jessie-lite.img",
          ⟨["2017-03-02-raspbian-jessie-lite.img"], 1⟩) :=
  (fetch_img_idempotent ⟨[], 0⟩ "2017-03-02-raspbian-jessie-lite.img"
    ⟨["2017-03-02-raspbian-jessie-lite.img"], 1⟩ (by decide)).1

/-- The IPv4 filtering pass, on records long enough not to raise, keeps
exactly the records whose third field is `IPv4`, in order. -/
theorem filterIPv4_eq (rs : List (List String)) (h : ∀ r ∈ rs, 3 ≤ r.length) :
    filterIPv4 rs = some (rs.filter (fun r => decide (r.getD 2 "" = "IPv4"))) := by
  induction rs with
  | nil => rfl
  | cons r rest ih =>
    have h3 : 3 ≤ r.length := h r (List.mem_cons_self r rest)
    have ih2 := ih (fun x hx => h x (List.mem_cons_of_mem r hx))
    cases e : r[2]? with
    | none =>
      exfalso
      have := List.getElem?_eq_none_iff.mp e
      omega
    | some v =>
      have hd : r.getD 2 "" = v := by
        simp [List.getD, e]
      by_cases hv : v = "IPv4"
      · simp [filterIPv4, e, hv, ih2, hd]
      · simp [filterIPv4, e, hv, ih2, hd]

/-- The formatting pass, on records long enough not to raise, prints
`hostname: ip_address` from fields seven and eight, in order. -/
theorem formatRecords_eq (rs : List (List String)) (h : ∀ r ∈ rs, 8 ≤ r.length) :
    formatRecords rs = some (rs.map (fun r => r.getD 6 "" ++ ": " ++ r.getD 7 "")) := by
  induction rs with
  | nil => rfl
  | cons r rest ih =>
    have h8 : 8 ≤ r.length := h r (List.mem_cons_self r rest)
    have ih2 := ih (fun x hx => h x (List.mem_cons_of_mem r hx))
    cases e6 : r[6]? with
    | none =>
      exfalso
      have := List.getElem?_eq_none_iff.mp e6
      omega
    | some hn =>
      cases e7 : r[7]? with
      | none =>
        exfalso
        have := List.getElem?_eq_none_iff.mp e7
        omega
      | some ip =>
        have hd6 : r.getD 6 "" = hn := by simp [List.getD, e6]
        have hd7 : r.getD 7 "" = ip := by simp [List.getD, e7]
        simp [formatRecords, e6, e7, ih2, hd6, hd7]

/-- Claim C9: whenever every `=`-record emitted by the discovery utility has
at least eight fields, the report prints, in emission order, one
`hostname: ip_address` line per record whose third field is `IPv4`, built
from the seventh and eighth fields, and no record whose third field is
`IPv6` contributes. -/
theorem find_report (lines : List String)
    (h : ∀ l ∈ lines, strStartsWith l "=" = true → 8 ≤ (splitSemi l).length) :
    findMain lines = some
      ((((lines.filter (fun l => strStartsWith l "=")).map splitSemi).filter
          (fun r => decide (r.getD 2 "" = "IPv4"))).map
        (fun r => r.getD 6 "" ++ ": " ++ r.getD 7 "")) ∧
    ∀ r ∈ ((lines.filter (fun l => strStartsWith l "=")).map splitSemi).filter
        (fun r => decide (r.getD 2 "" = "IPv4")), r.getD 2 "" ≠ "IPv6" := by
  have hrecs : ∀ r ∈ (lines.filter (fun l => strStartsWith l "=")).map splitSemi,
      8 ≤ r.length := by
    intro r hr
    rcases List.mem_map.mp hr with ⟨l, hl, rfl⟩
    have hm := List.mem_filter.mp hl
    exact h l hm.1 hm.2
  constructor
  · unfold findMain
    rw [filterIPv4_eq _ (fun r hr => le_trans (by omega) (hrecs r hr))]
    rw [Option.some_bind]
    apply formatRecords_eq
    intro r hr
    exact hrecs r (List.mem_filter.mp hr).1
  · intro r hr
    have hp := (List.mem_filter.mp hr).2
    have hp2 : r.getD 2 "" = "IPv4" := of_decide_eq_true hp
    rw [hp2]
    decide

/-- The discovery-utility output of the specification's end-to-end scenario:
one IPv4 record, one IPv6 record, one non-record line. -/
def demoLines : List String :=
  ["=;eth0;IPv4;pi;Workstation;local;pi.local;192.168.1.5;x",
   "=;eth0;IPv6;pi;Workstation;local;pi.local;fe80;x",
   "+;eth0;IPv4;junk"]

/-- Claim C9, witness: on the specification's scenario the report is exactly
`pi.local: 192.168.1.5` — the IPv6 record is excluded entirely. -/
theorem find_report_witness : findMain demoLines = some ["pi.local: 192.168.1.5"] := by
  have h := (find_report demoLines (by decide)).1
  rw [h]
  decide

/-- Claim C10: when no candidate public key exists and no `--ssh-key` flag is
given, the resolved key is `None`; the re-exec argument list then carries
that `None` directly after `--ssh-key` (positions 8 and 9), so
`subprocess.call` raises `TypeError` and the elevated (destructive) instance
never starts, rather than running without SSH provisioning. -/
theorem reexec_none_ssh_key (home pyExe script distro img path : String)
    (isFile : String → Bool) (wifi : Option (String × String)) (fiveInch skipFlash : Bool)
    (h : ∀ c ∈ sshKeyCandidates home, isFile c = false) :
    find_public_key home isFile = none ∧
    (reexecCmd pyExe script distro (find_public_key home isFile) img wifi fiveInch
        skipFlash path).get? 8 = some (some "--ssh-key") ∧
    (reexecCmd pyExe script distro (find_public_key home isFile) img wifi fiveInch
        skipFlash path).get? 9 = some none ∧
    none ∈ reexecCmd pyExe script distro (find_public_key home isFile) img wifi fiveInch
        skipFlash path ∧
    subprocessCallRuns (reexecCmd pyExe script distro (find_public_key home isFile) img
        wifi fiveInch skipFlash path) = false := by
  have hf : find_public_key home isFile = none := by
    apply List.find?_eq_none.mpr
    intro x hx
    simp [h x hx]
  rw [hf]
  refine ⟨rfl, rfl, rfl, ?_, ?_⟩
  · exact List.get?_mem (rfl : (reexecCmd pyExe script distro none img wifi fiveInch
      skipFlash path).get? 9 = some none)
  · rfl

/-- Claim C10, witness: with no key file on disk, the re-exec of the claim's
scenario resolves the key to `None` and `subprocess.call` cannot run it. -/
theorem reexec_none_ssh_key_witness :
    find_public_key "/home/u" (fun _ => false) = none ∧
    subprocessCallRuns (reexecCmd "/usr/bin/python" "flash.py" "raspbian"
        (find_public_key "/home/u" (fun _ => false)) "2017-03-02-raspbian-jessie-lite.img"
        none false false "/dev/sdb") = false := by
  have h := reexec_none_ssh_key "/home/u" "/usr/bin/python" "flash.py" "raspbian"
    "2017-03-02-raspbian-jessie-lite.img" "/dev/sdb" (fun _ => false) none false false
    (fun c _ => rfl)
  exact ⟨h.1, h.2.2.2.2⟩

end Bootstrap
